import Mathlib

/-!
Verification of `validate_content_tool` from `src/foundry-agent-tool.py`.

The Python function writes `content` to a temporary file, runs the external
validator `node .github/scripts/validate-file.js` on it, and turns the
subprocess outcome (return code, stdout, stderr) into a result dictionary
`{status, issues, message}`.  We embed the function shallowly: the subprocess
outcome is an explicit input (`SubprocessResult`), Python strings are modelled
as `List Char` (a Python `str` is a sequence of Unicode code points, and every
marker the code tests for is a single code point, so Python's substring `in`
is exactly list membership and `str.replace(m, '')` is exactly a filter).
-/

/-- A Python string: a sequence of Unicode code points. -/
abbrev PyStr := List Char

/-- Severity marker for `critical` (line 52-53 of the source tests `'🔴' in line`). -/
def marker_critical : Char := '🔴'

/-- Severity marker for `high`. -/
def marker_high : Char := '🟡'

/-- Severity marker for `medium`. -/
def marker_medium : Char := '🔵'

/-- Severity marker for `low`. -/
def marker_low : Char := '🟠'

/-- Suggestion marker (line 57 of the source tests `'💡' in lines[i+1]`). -/
def marker_suggestion : Char := '💡'

/-- Python whitespace predicate used by `str.strip()` (ASCII whitespace). -/
def isPySpace (c : Char) : Bool :=
  c == ' ' || c == '\t' || c == '\n' || c == '\r' || c == '\x0b' || c == '\x0c'

/-- Python `s.strip()`: remove leading and trailing whitespace. -/
def pyStrip (s : PyStr) : PyStr :=
  ((s.dropWhile isPySpace).reverse.dropWhile isPySpace).reverse

/-- Python `s.replace(c, '')` for a single-code-point pattern `c`:
remove every occurrence of `c`. -/
def removeChar (c : Char) (s : PyStr) : PyStr :=
  s.filter (fun x => x != c)

/-- Outcome of the completed validator subprocess, as observed by the Python
code: `result.returncode`, `result.stdout`, `result.stderr`. -/
structure SubprocessResult where
  returncode : Int
  stdout : PyStr
  stderr : PyStr

/-- One entry of the `issues` list built on lines 54-58 of the source.
The Python dict always carries the three keys `severity`, `message`,
`suggestion`; the `suggestion` key is bound to `None` when absent, which we
model as `Option`. -/
structure Issue where
  severity : PyStr
  message : PyStr
  suggestion : Option PyStr
deriving DecidableEq

/-- The dictionary returned by `validate_content_tool`. -/
structure ValidationResult where
  status : PyStr
  issues : List Issue
  message : PyStr
deriving DecidableEq

/-- Line 52: `'🔴' in line or '🟡' in line or '🔵' in line or '🟠' in line`. -/
def hasMarker (line : PyStr) : Prop :=
  marker_critical ∈ line ∨ marker_high ∈ line ∨ marker_medium ∈ line ∨ marker_low ∈ line

instance hasMarker.instDecidable (line : PyStr) : Decidable (hasMarker line) :=
  inferInstanceAs (Decidable (_ ∨ _ ∨ _ ∨ _))

/-- Line 53: `'critical' if '🔴' in line else 'high' if '🟡' in line else
'medium' if '🔵' in line else 'low'`. -/
def severityOf (line : PyStr) : PyStr :=
  if marker_critical ∈ line then "critical".data
  else if marker_high ∈ line then "high".data
  else if marker_medium ∈ line then "medium".data
  else "low".data

/-- Line 56: `line.replace('🔴', '').replace('🟡', '').replace('🔵', '').replace('🟠', '').strip()`. -/
def messageOf (line : PyStr) : PyStr :=
  pyStrip (removeChar marker_low (removeChar marker_medium
    (removeChar marker_high (removeChar marker_critical line))))

/-- Line 57: `lines[i+1].replace('💡', '').strip() if i + 1 < len(lines) and
'💡' in lines[i+1] else None`. -/
def suggestionOf (lines : List PyStr) (i : Nat) : Option PyStr :=
  if h : i + 1 < lines.length then
    if marker_suggestion ∈ lines.get ⟨i + 1, h⟩ then
      some (pyStrip (removeChar marker_suggestion (lines.get ⟨i + 1, h⟩)))
    else none
  else none

/-- The dict appended on lines 54-58 for a marker line at index `i`. -/
def mkIssue (lines : List PyStr) (i : Nat) (line : PyStr) : Issue :=
  { severity := severityOf line
    message := messageOf line
    suggestion := suggestionOf lines i }

/-- One iteration of the `for i, line in enumerate(lines)` loop body
(lines 51-58): append an issue exactly when the line carries a marker. -/
def parseLine (lines : List PyStr) (i : Nat) (line : PyStr) : Option Issue :=
  if hasMarker line then some (mkIssue lines i line) else none

/-- The loop of lines 49-58, walking the remaining lines with the running
index `i`; `lines` stays the full list because line 57 indexes into it. -/
def parseIssuesAux (lines : List PyStr) : Nat → List PyStr → List Issue
  | _, [] => []
  | i, line :: rest =>
    match parseLine lines i line with
    | some issue => issue :: parseIssuesAux lines (i + 1) rest
    | none => parseIssuesAux lines (i + 1) rest

/-- Lines 49-58: the full `issues` list extracted from the split output. -/
def parseIssues (lines : List PyStr) : List Issue :=
  parseIssuesAux lines 0 lines

/-- The f-string of line 63: `f"❌ Found {len(issues)} validation issue(s)"`. -/
def failMessage (n : Nat) : PyStr :=
  "❌ Found ".data ++ (Nat.repr n).data ++ " validation issue(s)".data

/-- `validate_content_tool(content, filename)`, lines 10-64, given the
observed subprocess outcome `r`.  `output = result.stdout + result.stderr`
(line 39), split on newlines (line 50). -/
def validate_content_tool (content filename : PyStr) (r : SubprocessResult) :
    ValidationResult :=
  let output := r.stdout ++ r.stderr
  if r.returncode = 0 then
    { status := "pass".data
      issues := []
      message := "✅ No validation issues found".data }
  else
    let lines := output.splitOn '\n'
    let issues := parseIssues lines
    { status := "fail".data
      issues := issues
      message := failMessage issues.length }

/-- The lines of a list, paired with their indices starting at `i`
(Python's `enumerate`, offset by a start index). -/
def enumFrom (i : Nat) : List PyStr → List (Nat × PyStr)
  | [] => []
  | x :: xs => (i, x) :: enumFrom (i + 1) xs

/-! ## Helper lemmas -/

theorem mem_of_mem_dropWhile {p : Char → Bool} :
    ∀ {l : PyStr} {x : Char}, x ∈ l.dropWhile p → x ∈ l := by
  intro l
  induction l with
  | nil => intro x h; simp at h
  | cons a as ih =>
    intro x h
    by_cases hp : p a
    · rw [List.dropWhile_cons_of_pos hp] at h
      exact List.mem_cons_of_mem _ (ih h)
    · rwa [List.dropWhile_cons_of_neg hp] at h

theorem mem_of_mem_pyStrip {s : PyStr} {x : Char} (h : x ∈ pyStrip s) : x ∈ s := by
  unfold pyStrip at h
  rw [List.mem_reverse] at h
  have h2 := mem_of_mem_dropWhile h
  rw [List.mem_reverse] at h2
  exact mem_of_mem_dropWhile h2

theorem mem_of_mem_removeChar {c : Char} {s : PyStr} {x : Char}
    (h : x ∈ removeChar c s) : x ∈ s ∧ x ≠ c := by
  unfold removeChar at h
  rw [List.mem_filter] at h
  refine ⟨h.1, ?_⟩
  simpa using h.2

theorem not_mem_removeChar_self (c : Char) (s : PyStr) : c ∉ removeChar c s := by
  intro h
  exact (mem_of_mem_removeChar h).2 rfl

/-- None of the four severity markers survives into `messageOf line`. -/
theorem markers_not_mem_messageOf (line : PyStr) :
    marker_critical ∉ messageOf line ∧ marker_high ∉ messageOf line ∧
    marker_medium ∉ messageOf line ∧ marker_low ∉ messageOf line := by
  refine ⟨fun h => ?_, fun h => ?_, fun h => ?_, fun h => ?_⟩
  · exact not_mem_removeChar_self _ _ (mem_of_mem_removeChar (mem_of_mem_removeChar
      (mem_of_mem_removeChar (mem_of_mem_pyStrip h)).1).1).1
  · exact not_mem_removeChar_self _ _ (mem_of_mem_removeChar
      (mem_of_mem_removeChar (mem_of_mem_pyStrip h)).1).1
  · exact not_mem_removeChar_self _ _ (mem_of_mem_removeChar (mem_of_mem_pyStrip h)).1
  · exact not_mem_removeChar_self _ _ (mem_of_mem_pyStrip h)

/-- Inversion for `parseLine`: a produced issue is `mkIssue` on a marker line. -/
theorem parseLine_eq_some {lines : List PyStr} {i : Nat} {line : PyStr} {issue : Issue}
    (h : parseLine lines i line = some issue) :
    hasMarker line ∧ issue = mkIssue lines i line := by
  unfold parseLine at h
  by_cases hm : hasMarker line
  · rw [if_pos hm] at h
    exact ⟨hm, (Option.some.injEq _ _ ▸ h).symm⟩
  · rw [if_neg hm] at h
    exact absurd h (by simp)

/-- The parsing loop equals a filter-then-map over the enumerated lines. -/
theorem parseIssuesAux_eq_filter_map (lines : List PyStr) :
    ∀ (rest : List PyStr) (i : Nat),
      parseIssuesAux lines i rest =
        ((enumFrom i rest).filter (fun p => decide (hasMarker p.2))).map
          (fun p => mkIssue lines p.1 p.2) := by
  intro rest
  induction rest with
  | nil => intro i; rfl
  | cons line rs ih =>
    intro i
    by_cases hm : hasMarker line
    · simp [parseIssuesAux, parseLine, hm, enumFrom, List.filter_cons, ih]
    · simp [parseIssuesAux, parseLine, hm, enumFrom, List.filter_cons, ih]

/-- The parsing loop returns no issues iff no remaining line carries a marker. -/
theorem parseIssuesAux_eq_nil_iff (lines : List PyStr) :
    ∀ (rest : List PyStr) (i : Nat),
      parseIssuesAux lines i rest = [] ↔ ∀ line ∈ rest, ¬ hasMarker line := by
  intro rest
  induction rest with
  | nil => intro i; simp [parseIssuesAux]
  | cons line rs ih =>
    intro i
    by_cases hm : hasMarker line
    · simp only [parseIssuesAux, parseLine, if_pos hm]
      simp [hm]
    · simp only [parseIssuesAux, parseLine, if_neg hm]
      rw [ih (i + 1)]
      simp [hm]

/-- In the non-zero-exit branch, the result fields are as computed on
lines 60-64 of the source. -/
theorem validate_fail_branch (content filename : PyStr) (r : SubprocessResult)
    (h : r.returncode ≠ 0) :
    validate_content_tool content filename r =
      { status := "fail".data
        issues := parseIssues ((r.stdout ++ r.stderr).splitOn '\n')
        message := failMessage (parseIssues ((r.stdout ++ r.stderr).splitOn '\n')).length } := by
  unfold validate_content_tool
  rw [if_neg h]

/-- In the zero-exit branch, the result is the fixed pass dictionary
(lines 41-46 of the source). -/
theorem validate_pass_branch (content filename : PyStr) (r : SubprocessResult)
    (h : r.returncode = 0) :
    validate_content_tool content filename r =
      { status := "pass".data
        issues := []
        message := "✅ No validation issues found".data } := by
  unfold validate_content_tool
  rw [if_pos h]

/-! ## Claim theorems -/

/-- Claim C1: if the validator subprocess exits with status 0 the result has
status "pass" and an empty issues list, and if it exits with any non-zero
status the result has status "fail". -/
theorem claim_C1_exit_code_determines_status (content filename : PyStr)
    (r : SubprocessResult) :
    (r.returncode = 0 →
      (validate_content_tool content filename r).status = "pass".data ∧
      (validate_content_tool content filename r).issues = []) ∧
    (r.returncode ≠ 0 →
      (validate_content_tool content filename r).status = "fail".data) := by
  constructor
  · intro h
    rw [validate_pass_branch content filename r h]
    exact ⟨rfl, rfl⟩
  · intro h
    rw [validate_fail_branch content filename r h]

/-- Witness for C1 at the concrete outcomes `(0, "", "")` and `(1, "", "")`. -/
theorem claim_C1_witness :
    ((validate_content_tool [] [] ⟨0, [], []⟩).status = "pass".data ∧
     (validate_content_tool [] [] ⟨0, [], []⟩).issues = []) ∧
    (validate_content_tool [] [] ⟨1, [], []⟩).status = "fail".data :=
  ⟨(claim_C1_exit_code_determines_status [] [] ⟨0, [], []⟩).1 rfl,
   (claim_C1_exit_code_determines_status [] [] ⟨1, [], []⟩).2 (by decide)⟩

/-- Claim C2 counterexample: on the outcome `(1, "", "")` (non-zero exit with
no marker line in the output) the result has status "fail" but an empty
issues list, refuting "status is fail iff issues is non-empty". -/
theorem claim_C2_counterexample :
    ¬ (((validate_content_tool [] [] ⟨1, [], []⟩).status = "fail".data) ↔
      (validate_content_tool [] [] ⟨1, [], []⟩).issues ≠ []) := by
  decide

/-- Claim C2 (amended): a non-empty issues list implies status "fail", and
status "pass" implies an empty issues list; the converse fails when the
subprocess exits non-zero but its output carries no severity-marker line. -/
theorem claim_C2_amended_pass_fail (content filename : PyStr)
    (r : SubprocessResult) :
    ((validate_content_tool content filename r).issues ≠ [] →
      (validate_content_tool content filename r).status = "fail".data) ∧
    ((validate_content_tool content filename r).status = "pass".data →
      (validate_content_tool content filename r).issues = []) := by
  by_cases h : r.returncode = 0
  · rw [validate_pass_branch content filename r h]
    exact ⟨fun hc => absurd rfl hc, fun _ => rfl⟩
  · rw [validate_fail_branch content filename r h]
    exact ⟨fun _ => rfl, fun hc =>
      absurd (show "fail".data = "pass".data from hc) (by decide)⟩

/-- Witness for the amended C2 at a concrete failing outcome. -/
theorem claim_C2_witness :
    (validate_content_tool [] [] ⟨1, "🔴 x".data, []⟩).status = "fail".data :=
  (claim_C2_amended_pass_fail [] [] ⟨1, "🔴 x".data, []⟩).1 (by decide)

/-- Claim C3: on a line carrying exactly one of the four severity markers the
parsed issue's severity is respectively critical, high, medium, low, and the
four severity values are pairwise distinct. -/
theorem claim_C3_marker_bijection (lines : List PyStr) (i : Nat) (line : PyStr)
    (issue : Issue) (hp : parseLine lines i line = some issue) :
    (marker_critical ∈ line ∧ marker_high ∉ line ∧ marker_medium ∉ line ∧
      marker_low ∉ line → issue.severity = "critical".data) ∧
    (marker_critical ∉ line ∧ marker_high ∈ line ∧ marker_medium ∉ line ∧
      marker_low ∉ line → issue.severity = "high".data) ∧
    (marker_critical ∉ line ∧ marker_high ∉ line ∧ marker_medium ∈ line ∧
      marker_low ∉ line → issue.severity = "medium".data) ∧
    (marker_critical ∉ line ∧ marker_high ∉ line ∧ marker_medium ∉ line ∧
      marker_low ∈ line → issue.severity = "low".data) ∧
    ("critical".data ≠ "high".data ∧ "critical".data ≠ "medium".data ∧
     "critical".data ≠ "low".data ∧ "high".data ≠ "medium".data ∧
     "high".data ≠ "low".data ∧ "medium".data ≠ "low".data) := by
  obtain ⟨hm, rfl⟩ := parseLine_eq_some hp
  refine ⟨?_, ?_, ?_, ?_, by decide⟩ <;> rintro ⟨h1, h2, h3, h4⟩ <;>
    simp [mkIssue, severityOf, h1, h2, h3, h4]

/-- Witness for C3 on the single-marker line "🔵 m". -/
theorem claim_C3_witness :
    ({ severity := "medium".data, message := "m".data,
       suggestion := none } : Issue).severity = "medium".data :=
  (claim_C3_marker_bijection ["🔵 m".data] 0 "🔵 m".data
    { severity := "medium".data, message := "m".data, suggestion := none }
    (by decide)).2.2.1 (by decide)

/-- Claim C4: a suggestion is attached iff the line directly below the marker
line exists and carries the 💡 marker, and in that case it is that next line
with the 💡 marker removed and whitespace stripped. -/
theorem claim_C4_suggestion_next_line (lines : List PyStr) (i : Nat)
    (line : PyStr) (issue : Issue) (hp : parseLine lines i line = some issue) :
    ((∃ h : i + 1 < lines.length, marker_suggestion ∈ lines.get ⟨i + 1, h⟩) ↔
      issue.suggestion ≠ none) ∧
    (∀ (h : i + 1 < lines.length), marker_suggestion ∈ lines.get ⟨i + 1, h⟩ →
      issue.suggestion =
        some (pyStrip (removeChar marker_suggestion (lines.get ⟨i + 1, h⟩)))) := by
  obtain ⟨hm, rfl⟩ := parseLine_eq_some hp
  constructor
  · show (∃ _, _) ↔ suggestionOf lines i ≠ none
    unfold suggestionOf
    by_cases h : i + 1 < lines.length
    · rw [dif_pos h]
      by_cases hs : marker_suggestion ∈ lines.get ⟨i + 1, h⟩
      · rw [if_pos hs]
        exact iff_of_true ⟨h, hs⟩ (by simp)
      · rw [if_neg hs]
        exact iff_of_false (fun ⟨h', hs'⟩ => hs hs') (by simp)
    · rw [dif_neg h]
      exact iff_of_false (fun ⟨h', _⟩ => h h') (by simp)
  · intro h hs
    show suggestionOf lines i = _
    unfold suggestionOf
    rw [dif_pos h, if_pos hs]

/-- Witness for C4: the line "🔴 a" followed by "💡 b" gets suggestion "b". -/
theorem claim_C4_witness :
    ({ severity := "critical".data, message := "a".data,
       suggestion := some "b".data } : Issue).suggestion =
      some (pyStrip (removeChar marker_suggestion
        (["🔴 a".data, "💡 b".data].get ⟨1, by decide⟩))) :=
  (claim_C4_suggestion_next_line ["🔴 a".data, "💡 b".data] 0 "🔴 a".data
    { severity := "critical".data, message := "a".data,
      suggestion := some "b".data }
    (by decide)).2 (by decide) (by decide)

/-- Claim C5: a clean run (exit 0), a validator that could not run (non-zero
exit, no marker line in the output) and a run with findings (non-zero exit,
some marker line) yield pairwise distinct results. -/
theorem claim_C5_three_outcomes_distinguishable (content filename : PyStr)
    (rClean rCrash rFind : SubprocessResult)
    (hClean : rClean.returncode = 0)
    (hCrashRc : rCrash.returncode ≠ 0)
    (hCrashOut : ∀ line ∈ (rCrash.stdout ++ rCrash.stderr).splitOn '\n',
      ¬ hasMarker line)
    (hFindRc : rFind.returncode ≠ 0)
    (hFindOut : ∃ line ∈ (rFind.stdout ++ rFind.stderr).splitOn '\n',
      hasMarker line) :
    validate_content_tool content filename rClean ≠
      validate_content_tool content filename rCrash ∧
    validate_content_tool content filename rClean ≠
      validate_content_tool content filename rFind ∧
    validate_content_tool content filename rCrash ≠
      validate_content_tool content filename rFind := by
  have hc := validate_pass_branch content filename rClean hClean
  have h1 := validate_fail_branch content filename rCrash hCrashRc
  have h2 := validate_fail_branch content filename rFind hFindRc
  have hIss1 : parseIssues ((rCrash.stdout ++ rCrash.stderr).splitOn '\n') = [] :=
    (parseIssuesAux_eq_nil_iff _ _ 0).2 hCrashOut
  have hIss2 : parseIssues ((rFind.stdout ++ rFind.stderr).splitOn '\n') ≠ [] := by
    intro hnil
    obtain ⟨line, hmem, hmark⟩ := hFindOut
    exact ((parseIssuesAux_eq_nil_iff _ _ 0).1 hnil line hmem) hmark
  refine ⟨?_, ?_, ?_⟩
  · intro he
    rw [hc, h1] at he
    have hst : "pass".data = "fail".data := congrArg ValidationResult.status he
    exact absurd hst (by decide)
  · intro he
    rw [hc, h2] at he
    have hst : "pass".data = "fail".data := congrArg ValidationResult.status he
    exact absurd hst (by decide)
  · intro he
    rw [h1, h2] at he
    have hxy : parseIssues ((rCrash.stdout ++ rCrash.stderr).splitOn '\n') =
        parseIssues ((rFind.stdout ++ rFind.stderr).splitOn '\n') :=
      congrArg ValidationResult.issues he
    exact hIss2 (hxy.symm.trans hIss1)

/-- Witness for C5 at the outcomes `(0,"","")`, `(1,"","")`, `(1,"🔴 bad","")`. -/
theorem claim_C5_witness :
    validate_content_tool [] [] ⟨0, [], []⟩ ≠
      validate_content_tool [] [] ⟨1, [], []⟩ ∧
    validate_content_tool [] [] ⟨0, [], []⟩ ≠
      validate_content_tool [] [] ⟨1, "🔴 bad".data, []⟩ ∧
    validate_content_tool [] [] ⟨1, [], []⟩ ≠
      validate_content_tool [] [] ⟨1, "🔴 bad".data, []⟩ :=
  claim_C5_three_outcomes_distinguishable [] [] ⟨0, [], []⟩ ⟨1, [], []⟩
    ⟨1, "🔴 bad".data, []⟩ (by decide) (by decide) (by decide) (by decide)
    (by decide)

/-- Claim C6: the filename argument does not branch behavior — for the same
content and the same subprocess outcome, any two filenames give identical
results. -/
theorem claim_C6_filename_no_branching (content f1 f2 : PyStr)
    (r : SubprocessResult) :
    validate_content_tool content f1 r = validate_content_tool content f2 r :=
  rfl

/-- Claim C7: on a failing exit, the issues list is exactly the marker lines
of the split stdout-then-stderr output, in order, each mapped to its issue
(severity, message, optional suggestion from that line and the next). -/
theorem claim_C7_order_preserved (content filename : PyStr)
    (r : SubprocessResult) (h : r.returncode ≠ 0) :
    (validate_content_tool content filename r).issues =
      ((enumFrom 0 ((r.stdout ++ r.stderr).splitOn '\n')).filter
        (fun p => decide (hasMarker p.2))).map
        (fun p => mkIssue ((r.stdout ++ r.stderr).splitOn '\n') p.1 p.2) := by
  rw [validate_fail_branch content filename r h]
  exact parseIssuesAux_eq_filter_map _ _ 0

/-- Witness for C7 on a three-line output with two marker lines. -/
theorem claim_C7_witness :
    (validate_content_tool [] [] ⟨1, "🔴 x\n💡 y\n🟡 z".data, []⟩).issues =
      ((enumFrom 0 (("🔴 x\n💡 y\n🟡 z".data ++ ([] : PyStr)).splitOn '\n')).filter
        (fun p => decide (hasMarker p.2))).map
        (fun p => mkIssue (("🔴 x\n💡 y\n🟡 z".data ++ ([] : PyStr)).splitOn '\n')
          p.1 p.2) :=
  claim_C7_order_preserved [] [] ⟨1, "🔴 x\n💡 y\n🟡 z".data, []⟩ (by decide)

/-- Claim C8: the result is a function of the observed subprocess outcome —
identical exit status, stdout and stderr give identical results. -/
theorem claim_C8_deterministic (content filename : PyStr)
    (r1 r2 : SubprocessResult) (hrc : r1.returncode = r2.returncode)
    (hout : r1.stdout = r2.stdout) (herr : r1.stderr = r2.stderr) :
    validate_content_tool content filename r1 =
      validate_content_tool content filename r2 := by
  obtain ⟨a1, b1, c1⟩ := r1
  obtain ⟨a2, b2, c2⟩ := r2
  dsimp only at hrc hout herr
  subst hrc
  subst hout
  subst herr
  rfl

/-- Witness for C8 at a concrete repeated outcome. -/
theorem claim_C8_witness :
    validate_content_tool [] [] ⟨1, "🔴 a".data, []⟩ =
      validate_content_tool [] [] ⟨1, "🔴 a".data, []⟩ :=
  claim_C8_deterministic [] [] ⟨1, "🔴 a".data, []⟩ ⟨1, "🔴 a".data, []⟩
    rfl rfl rfl

/-- Claim C9: on a line with several distinct markers severity follows the
fixed precedence 🔴 over 🟡 over 🔵 over 🟠, and no occurrence of any of the
four marker glyphs survives into the issue's message. -/
theorem claim_C9_precedence_and_removal (lines : List PyStr) (i : Nat)
    (line : PyStr) (issue : Issue) (hp : parseLine lines i line = some issue) :
    (marker_critical ∈ line → issue.severity = "critical".data) ∧
    (marker_critical ∉ line → marker_high ∈ line →
      issue.severity = "high".data) ∧
    (marker_critical ∉ line → marker_high ∉ line → marker_medium ∈ line →
      issue.severity = "medium".data) ∧
    (marker_critical ∉ line → marker_high ∉ line → marker_medium ∉ line →
      marker_low ∈ line → issue.severity = "low".data) ∧
    (marker_critical ∉ issue.message ∧ marker_high ∉ issue.message ∧
     marker_medium ∉ issue.message ∧ marker_low ∉ issue.message) := by
  obtain ⟨hm, rfl⟩ := parseLine_eq_some hp
  refine ⟨?_, ?_, ?_, ?_, markers_not_mem_messageOf line⟩
  · intro h1
    simp [mkIssue, severityOf, h1]
  · intro h1 h2
    simp [mkIssue, severityOf, h1, h2]
  · intro h1 h2 h3
    simp [mkIssue, severityOf, h1, h2, h3]
  · intro h1 h2 h3 h4
    simp [mkIssue, severityOf, h1, h2, h3, h4]

/-- Witness for C9 on the two-marker line "🟡 warn 🔵". -/
theorem claim_C9_witness :
    ({ severity := "high".data, message := "warn".data,
       suggestion := none } : Issue).severity = "high".data :=
  (claim_C9_precedence_and_removal ["🟡 warn 🔵".data] 0 "🟡 warn 🔵".data
    { severity := "high".data, message := "warn".data, suggestion := none }
    (by decide)).2.1 (by decide) (by decide)

/-- Claim C10: when the line below a marker line is absent or does not carry
the 💡 marker, the issue's suggestion field is `none` (the Python dict always
carries the key, bound to `None`). -/
theorem claim_C10_suggestion_defaults_none (lines : List PyStr) (i : Nat)
    (line : PyStr) (issue : Issue) (hp : parseLine lines i line = some issue)
    (hno : ∀ (h : i + 1 < lines.length),
      marker_suggestion ∉ lines.get ⟨i + 1, h⟩) :
    issue.suggestion = none := by
  obtain ⟨hm, rfl⟩ := parseLine_eq_some hp
  show suggestionOf lines i = none
  unfold suggestionOf
  by_cases h : i + 1 < lines.length
  · rw [dif_pos h, if_neg (hno h)]
  · rw [dif_neg h]

/-- Witness for C10: the marker line "🟠 p" followed by a plain line. -/
theorem claim_C10_witness :
    ({ severity := "low".data, message := "p".data,
       suggestion := none } : Issue).suggestion = none :=
  claim_C10_suggestion_defaults_none ["🟠 p".data, "ok".data] 0 "🟠 p".data
    { severity := "low".data, message := "p".data, suggestion := none }
    (by decide) (fun _ =>
      show marker_suggestion ∉ ["🟠 p".data, "ok".data].get ⟨1, by decide⟩ by
        decide)
